import Mathlib

/-!
Shallow embedding of `MTCircularBuffer` (header-only C++ circular buffer,
single producer / multiple consumers).

The buffer state consists of the per-slot descriptors (`writing`,
`n_reading`, `is_dirty`), the FIFO queue of dirty slot indices
(`dirty_slots`, front = list head, back = list last) and the write cursor
(`curr_w_slot`).  The element storage `buff` carries no information relevant
to the verified properties (only its size, which equals the descriptor
count), so it is not represented.

Lock acquisitions are timed in the source and may fail; each operation
therefore takes explicit boolean oracles saying whether the corresponding
timed acquisition succeeded within its deadline.  Unchecked vector indexing
(`buff_desc[i]` without a bounds test) is modelled by `List.get?`: an
out-of-range access makes the whole operation return `none` (undefined
behaviour in C++), while the source's checked observers return their
documented fallback values.
-/

namespace MTCB

/-- The two exception kinds of the source: `SlotAcqTimeout` and
`DataAvailableTimeout`. -/
inductive BuffErr where
  | slotAcqTimeout
  | dataAvailableTimeout
deriving DecidableEq, Repr

/-- Per-slot descriptor, from `struct BufferSlotDescriptor` (the
`boost::shared_mutex slot_mtx` member is represented by the lock oracles,
not by state). -/
structure BufferSlotDescriptor where
  writing : Bool
  n_reading : Nat
  is_dirty : Bool
deriving DecidableEq, Repr

/-- Buffer state: descriptor vector `buff_desc`, dirty-slot FIFO
`dirty_slots` (front = head) and write cursor `curr_w_slot`. -/
structure BufferState where
  buff_desc : List BufferSlotDescriptor
  dirty_slots : List Nat
  curr_w_slot : Nat
deriving DecidableEq, Repr

/-- `#define DEFAULT_LOCK_TIMEOUT_SEC 1`. -/
def DEFAULT_LOCK_TIMEOUT_SEC : Nat := 1

/-- `buff.size()` (constructed with the same size as `buff_desc`, and both
are never resized, so the descriptor count stands for it). -/
def size (s : BufferState) : Nat := s.buff_desc.length

/-- Unchecked descriptor access `buff_desc[i]`; `none` models the
out-of-range case (undefined behaviour in the source). -/
def getDesc (s : BufferState) (i : Nat) : Option BufferSlotDescriptor :=
  s.buff_desc.get? i

/-- Write back descriptor `i` (descriptors are held by pointer in the
source; mutation through the pointer is modelled by `List.set`). -/
def setDesc (s : BufferState) (i : Nat) (d : BufferSlotDescriptor) : BufferState :=
  { s with buff_desc := s.buff_desc.set i d }

/-- State of one freshly value-initialised descriptor: the source allocates
`new BufferSlotDescriptor()` (with parentheses, hence value-initialisation,
which zero-initialises `writing`, `n_reading` and `is_dirty`) and the
constructor loop then assigns `writing = false` and `n_reading = 0`
explicitly. -/
def initDescriptor : BufferSlotDescriptor :=
  { writing := false, n_reading := 0, is_dirty := false }

/-- `MTCircularBuffer(size_t size)`: `size` descriptors, empty dirty queue,
cursor `0`. -/
def MTCircularBuffer_init (sz : Nat) : BufferState :=
  { buff_desc := List.replicate sz initDescriptor
    dirty_slots := []
    curr_w_slot := 0 }

/-- `clear()`: under the global `main_mtx` (timed; failure throws
`SlotAcqTimeout`), pop the dirty queue until empty and reset the cursor to
`0`.  Descriptors are not touched. -/
def clear (s : BufferState) (main_lock_ok : Bool) : Except BuffErr BufferState :=
  if main_lock_ok = false then
    Except.error BuffErr.slotAcqTimeout
  else
    Except.ok { s with dirty_slots := [], curr_w_slot := 0 }

/-- Outcome of `write_next`: the thrown exception if any, the buffer state
as left behind, the handle's binding (`some slot` iff `srcBuffer` was set,
i.e. the handle is bound), and the value stored through the optional
`overwrite_occurred` pointer if one was supplied and written. -/
structure WriteOutcome where
  err : Option BuffErr
  state : BufferState
  handle : Option Nat
  overwrite_occurred : Option Bool
deriving DecidableEq, Repr

/-- `write_next(acc, overwrite_occurred)`.  Order of the source:
1. timed exclusive lock on `buff_desc[curr_w_slot]->slot_mtx`
   (failure: throw `SlotAcqTimeout`, nothing written);
2. if the pointer was supplied, `*overwrite_occurred = is_dirty` of the
   cursor slot;
3. bind the handle (`_slot`, `data`, `srcBuffer`), set `writing = true`,
   swap the lock into the handle;
4. timed lock on the global `main_mtx` (failure: throw `SlotAcqTimeout`
   with the handle already bound and `writing` already set);
5. advance `curr_w_slot` to `(curr_w_slot + 1) % buff.size()`.
`want_overwrite` says whether the caller passed a non-null
`overwrite_occurred` pointer. -/
def write_next (s : BufferState) (want_overwrite : Bool)
    (slot_lock_ok main_lock_ok : Bool) : Option WriteOutcome :=
  match getDesc s s.curr_w_slot with
  | none => none
  | some d =>
    if slot_lock_ok = false then
      some { err := some BuffErr.slotAcqTimeout, state := s
             handle := none, overwrite_occurred := none }
    else
      let ow := if want_overwrite then some d.is_dirty else none
      let s1 := setDesc s s.curr_w_slot { d with writing := true }
      if main_lock_ok = false then
        some { err := some BuffErr.slotAcqTimeout, state := s1
               handle := some s.curr_w_slot, overwrite_occurred := ow }
      else
        some { err := none
               state := { s1 with curr_w_slot := (s.curr_w_slot + 1) % size s }
               handle := some s.curr_w_slot, overwrite_occurred := ow }

/-- Outcome of the shared-access operations (`read_slot`,
`read_newest_available`): error, resulting state, handle binding. -/
structure ReadOutcome where
  err : Option BuffErr
  state : BufferState
  handle : Option Nat
deriving DecidableEq, Repr

/-- `read_slot(slot, acc)`: timed shared lock on `buff_desc[slot]->slot_mtx`
(no bounds check on `slot`), then bind the handle and increment
`n_reading`. -/
def read_slot (s : BufferState) (slot : Nat) (slot_lock_ok : Bool) :
    Option ReadOutcome :=
  match getDesc s slot with
  | none => none
  | some d =>
    if slot_lock_ok = false then
      some { err := some BuffErr.slotAcqTimeout, state := s, handle := none }
    else
      some { err := none
             state := setDesc s slot { d with n_reading := d.n_reading + 1 }
             handle := some slot }

/-- Deadline handed to `data_available.timed_wait` inside
`read_newest_available`: the source passes `boost::get_system_time()` with
no duration added, so the wait expires at the current time. -/
def read_newest_wait_deadline (now : Nat) : Nat := now

/-- Deadline handed to `data_available.timed_wait` inside
`consume_next_available`: `boost::get_system_time() + lock_timeout` with
`lock_timeout = DEFAULT_LOCK_TIMEOUT_SEC`. -/
def consume_wait_deadline (now : Nat) : Nat := now + DEFAULT_LOCK_TIMEOUT_SEC

/-- `read_newest_available(acc)`: wait for a non-empty dirty queue (an empty
queue with an expired wait throws `DataAvailableTimeout`; the deadline is
`read_newest_wait_deadline`, which is the current time, so in the embedding
an empty queue throws at once), then take the BACK of the queue without
popping, acquire its shared lock, bind the handle and increment
`n_reading`. -/
def read_newest_available (s : BufferState) (slot_lock_ok : Bool) :
    Option ReadOutcome :=
  match s.dirty_slots.getLast? with
  | none => some { err := some BuffErr.dataAvailableTimeout, state := s, handle := none }
  | some slot =>
    match getDesc s slot with
    | none => none
    | some d =>
      if slot_lock_ok = false then
        some { err := some BuffErr.slotAcqTimeout, state := s, handle := none }
      else
        some { err := none
               state := setDesc s slot { d with n_reading := d.n_reading + 1 }
               handle := some slot }

/-- Outcome of `consume_next_available`; `notified_all` records whether
`data_available.notify_all()` was called on the error path. -/
structure ConsumeOutcome where
  err : Option BuffErr
  state : BufferState
  handle : Option Nat
  notified_all : Bool
deriving DecidableEq, Repr

/-- `consume_next_available(acc)`: wait for a non-empty dirty queue (empty
for the whole deadline: `DataAvailableTimeout`), read the FRONT of the
queue, attempt the timed shared lock; on failure call
`data_available.notify_all()` and throw `SlotAcqTimeout` leaving the queue
unchanged; on success pop the front, bind the handle and increment
`n_reading`. -/
def consume_next_available (s : BufferState) (slot_lock_ok : Bool) :
    Option ConsumeOutcome :=
  match s.dirty_slots with
  | [] =>
    some { err := some BuffErr.dataAvailableTimeout, state := s
           handle := none, notified_all := false }
  | slot :: rest =>
    match getDesc s slot with
    | none => none
    | some d =>
      if slot_lock_ok = false then
        some { err := some BuffErr.slotAcqTimeout, state := s
               handle := none, notified_all := true }
      else
        some { err := none
               state := { setDesc s slot { d with n_reading := d.n_reading + 1 } with
                            dirty_slots := rest }
               handle := some slot, notified_all := false }

/-- `release_slot_access(BufferSlotWriteAccess)`: clear `writing`, set
`is_dirty`, push the slot onto the BACK of the dirty queue (unconditionally)
and `notify_one`. -/
def release_slot_access_write (s : BufferState) (slot : Nat) : Option BufferState :=
  match getDesc s slot with
  | none => none
  | some d =>
    let s1 := setDesc s slot { d with writing := false, is_dirty := true }
    some { s1 with dirty_slots := s1.dirty_slots ++ [slot] }

/-- `release_slot_access(BufferSlotReadAccess)`: decrement `n_reading`
(`size_t` decrement; every bound read handle was granted with `n_reading`
incremented, so the embedding only ever applies it at positive counts). -/
def release_slot_access_read (s : BufferState) (slot : Nat) : Option BufferState :=
  match getDesc s slot with
  | none => none
  | some d => some (setDesc s slot { d with n_reading := d.n_reading - 1 })

/-- `release_slot_access(BufferSlotConsumeAccess)`: clear `is_dirty` and
decrement `n_reading`; the dirty-queue entry was already popped at
acquisition, so the queue is untouched. -/
def release_slot_access_consume (s : BufferState) (slot : Nat) : Option BufferState :=
  match getDesc s slot with
  | none => none
  | some d => some (setDesc s slot { d with is_dirty := false, n_reading := d.n_reading - 1 })

/-- `is_written(slot)`: bounds-checked; out of range returns `false`. -/
def is_written (s : BufferState) (slot : Nat) : Bool :=
  match s.buff_desc.get? slot with
  | some d => d.writing
  | none => false

/-- `num_concurrent_read(slot)`: bounds-checked; out of range returns `0`. -/
def num_concurrent_read (s : BufferState) (slot : Nat) : Nat :=
  match s.buff_desc.get? slot with
  | some d => d.n_reading
  | none => 0

/-- `is_read(slot)`. -/
def is_read (s : BufferState) (slot : Nat) : Bool :=
  num_concurrent_read s slot > 0

/-- `num_consumable_slots()`: the dirty-queue length. -/
def num_consumable_slots (s : BufferState) : Nat := s.dirty_slots.length

/-- One producer round with all locks granted: `write_next` (no overwrite
pointer) followed by destruction of the write handle. -/
def runWriteRelease (s : BufferState) : Option BufferState :=
  (write_next s false true true).bind fun out =>
    match out.handle with
    | some sl => release_slot_access_write out.state sl
    | none => none

/-- A sample reachable-shape state used by the witnesses: two slots, slot 0
dirty and queued, cursor at slot 1. -/
def sampleState : BufferState :=
  { buff_desc := [{ writing := false, n_reading := 0, is_dirty := true },
                  { writing := false, n_reading := 0, is_dirty := false }]
    dirty_slots := [0]
    curr_w_slot := 1 }

/-- C5: after construction of a buffer of any positive capacity `N`, every
slot descriptor is zeroed: for every `i < N`, `writing` is `false`,
`n_reading` is `0` and `is_dirty` is `false`. -/
theorem c5_constructor_zeroed (n i : Nat) (h : i < n) :
    getDesc (MTCircularBuffer_init n) i =
      some { writing := false, n_reading := 0, is_dirty := false } := by
  simp [getDesc, MTCircularBuffer_init, initDescriptor, List.get?_eq_getElem?,
    List.getElem?_replicate, h]

/-- Witness for C5 at `N = 3`, `i = 1`. -/
theorem c5_witness :
    getDesc (MTCircularBuffer_init 3) 1 =
      some { writing := false, n_reading := 0, is_dirty := false } :=
  c5_constructor_zeroed 3 1 (by decide)

/-- C4: on every successful `write_next` the handle becomes bound to the
slot under the write cursor, that slot's `writing` flag is set `true` (its
other fields untouched), the cursor advances to `(cursor + 1) mod N`, and
when the `overwrite_occurred` pointer is supplied it receives the slot's
`is_dirty` value from before the write. -/
theorem c4_write_next_success (s : BufferState) (d : BufferSlotDescriptor) (w : Bool)
    (hd : getDesc s s.curr_w_slot = some d) :
    ∃ out, write_next s w true true = some out ∧
      out.err = none ∧
      out.handle = some s.curr_w_slot ∧
      getDesc out.state s.curr_w_slot = some { d with writing := true } ∧
      out.state.curr_w_slot = (s.curr_w_slot + 1) % size s ∧
      out.overwrite_occurred = (if w then some d.is_dirty else none) := by
  have hlt : s.curr_w_slot < s.buff_desc.length := by
    by_contra hge
    rw [getDesc, List.get?_eq_getElem?, List.getElem?_eq_none (Nat.le_of_not_lt hge)] at hd
    exact Option.noConfusion hd
  refine ⟨{ err := none
            state := { setDesc s s.curr_w_slot { d with writing := true } with
                         curr_w_slot := (s.curr_w_slot + 1) % size s }
            handle := some s.curr_w_slot
            overwrite_occurred := if w then some d.is_dirty else none },
    ?_, rfl, rfl, ?_, rfl, rfl⟩
  · simp [write_next, hd]
  · simp [getDesc, setDesc, List.get?_eq_getElem?, List.getElem?_set_self, hlt]

/-- Witness for C4 on `sampleState` (cursor 1, clean slot): the overwrite
flag reads back the prior `is_dirty = false`. -/
theorem c4_witness :
    ∃ out, write_next sampleState true true true = some out ∧
      out.err = none ∧
      out.handle = some sampleState.curr_w_slot ∧
      getDesc out.state sampleState.curr_w_slot =
        some { writing := true, n_reading := 0, is_dirty := false } ∧
      out.state.curr_w_slot = (sampleState.curr_w_slot + 1) % size sampleState ∧
      out.overwrite_occurred = (if true then some false else none) :=
  c4_write_next_success sampleState
    { writing := false, n_reading := 0, is_dirty := false } true rfl

/-- C1 counterexample: on a fresh one-slot buffer, `write_next` whose
per-slot lock succeeds but whose global-lock acquisition then times out
raises `SlotAcqTimeout` with the handle BOUND to slot 0 and the slot's
`writing` flag left `true` — the buffer state is changed, contradicting the
claim that the handle is unbound and the state untouched. -/
theorem c1_counterexample :
    write_next (MTCircularBuffer_init 1) false true false =
      some { err := some BuffErr.slotAcqTimeout
             state := { buff_desc := [{ writing := true, n_reading := 0, is_dirty := false }]
                        dirty_slots := []
                        curr_w_slot := 0 }
             handle := some 0
             overwrite_occurred := none } ∧
    ({ buff_desc := [{ writing := true, n_reading := 0, is_dirty := false }]
       dirty_slots := []
       curr_w_slot := 0 } : BufferState) ≠ MTCircularBuffer_init 1 ∧
    is_written { buff_desc := [{ writing := true, n_reading := 0, is_dirty := false }]
                 dirty_slots := []
                 curr_w_slot := 0 } 0 = true := by
  refine ⟨rfl, ?_, rfl⟩
  decide

/-- C1 amended: every `SlotAcqTimeout` raised by `read_slot`,
`read_newest_available`, `consume_next_available`, `clear`, or the failure
of `write_next`'s FIRST (per-slot exclusive) acquisition leaves the handle
unbound and the buffer unchanged; but when the per-slot lock is acquired
and the global-lock acquisition then times out, `write_next` raises
`SlotAcqTimeout` with the handle bound to the cursor slot and that slot's
`writing` flag set, the cursor and the drained-queue being left
unchanged. -/
theorem c1_amended (s : BufferState) (q slot lastSlot : Nat) (qs : List Nat)
    (dc dq dr dl : BufferSlotDescriptor) (w b : Bool)
    (hc : getDesc s s.curr_w_slot = some dc)
    (hr : getDesc s slot = some dr)
    (hq : s.dirty_slots = q :: qs)
    (hdq : getDesc s q = some dq)
    (hlast : s.dirty_slots.getLast? = some lastSlot)
    (hdl : getDesc s lastSlot = some dl) :
    (write_next s w false b =
       some { err := some BuffErr.slotAcqTimeout, state := s, handle := none
              overwrite_occurred := none }) ∧
    (∃ out, write_next s w true false = some out ∧
       out.err = some BuffErr.slotAcqTimeout ∧
       out.handle = some s.curr_w_slot ∧
       getDesc out.state s.curr_w_slot = some { dc with writing := true } ∧
       out.state.curr_w_slot = s.curr_w_slot ∧
       out.state.dirty_slots = s.dirty_slots) ∧
    (read_slot s slot false =
       some { err := some BuffErr.slotAcqTimeout, state := s, handle := none }) ∧
    (read_newest_available s false =
       some { err := some BuffErr.slotAcqTimeout, state := s, handle := none }) ∧
    (∃ out, consume_next_available s false = some out ∧
       out.err = some BuffErr.slotAcqTimeout ∧ out.state = s ∧ out.handle = none) ∧
    (clear s false = Except.error BuffErr.slotAcqTimeout) := by
  have hlt : s.curr_w_slot < s.buff_desc.length := by
    by_contra hge
    rw [getDesc, List.get?_eq_getElem?, List.getElem?_eq_none (Nat.le_of_not_lt hge)] at hc
    exact Option.noConfusion hc
  refine ⟨by simp [write_next, hc], ?_, by simp [read_slot, hr],
    by simp [read_newest_available, hlast, hdl], ?_, by simp [clear]⟩
  · refine ⟨{ err := some BuffErr.slotAcqTimeout
              state := setDesc s s.curr_w_slot { dc with writing := true }
              handle := some s.curr_w_slot
              overwrite_occurred := if w then some dc.is_dirty else none },
      ?_, rfl, rfl, ?_, rfl, rfl⟩
    · simp [write_next, hc]
    · simp [getDesc, setDesc, List.get?_eq_getElem?, List.getElem?_set_self, hlt]
  · obtain ⟨bd, ds, cw⟩ := s
    simp only at hq
    subst hq
    refine ⟨{ err := some BuffErr.slotAcqTimeout
              state := { buff_desc := bd, dirty_slots := q :: qs, curr_w_slot := cw }
              handle := none, notified_all := true }, ?_, rfl, rfl, rfl⟩
    simp [consume_next_available, hdq]

/-- Witness for C1 amended on `sampleState`. -/
theorem c1_amended_witness :
    clear sampleState false = Except.error BuffErr.slotAcqTimeout :=
  (c1_amended sampleState 0 0 0 []
    { writing := false, n_reading := 0, is_dirty := false }
    { writing := false, n_reading := 0, is_dirty := true }
    { writing := false, n_reading := 0, is_dirty := true }
    { writing := false, n_reading := 0, is_dirty := true }
    true true rfl rfl rfl rfl rfl rfl).2.2.2.2.2

/-- C2 fails on the code (the spec itself flags this as a likely source
bug): `release_slot_access(BufferSlotWriteAccess)` pushes the slot onto the
drained-queue unconditionally, with no `is_dirty` test, so on a one-slot
buffer two write/release rounds leave the queue `[0, 0]` — the index `0`
appears twice, and the second release appended even though the slot was
already `is_dirty`. -/
theorem c2_duplicate_in_queue :
    ((runWriteRelease (MTCircularBuffer_init 1)).bind runWriteRelease).map
        (fun s => s.dirty_slots) = some [0, 0] ∧
    release_slot_access_write
        { buff_desc := [{ writing := false, n_reading := 0, is_dirty := true }]
          dirty_slots := [0]
          curr_w_slot := 0 } 0 =
      some { buff_desc := [{ writing := false, n_reading := 0, is_dirty := true }]
             dirty_slots := [0, 0]
             curr_w_slot := 0 } ∧
    ¬ ([0, 0] : List Nat).Nodup := by
  refine ⟨rfl, rfl, by decide⟩

/-- C3 fails on the code: the deadline the source hands to
`data_available.timed_wait` inside `read_newest_available` is
`boost::get_system_time()` with no duration added, so the availability wait
is granted zero time (it expires immediately), while
`consume_next_available` adds the one-second `DEFAULT_LOCK_TIMEOUT_SEC`;
consequently `read_newest_available` on an empty drained-queue raises
`DataAvailableTimeout` at once instead of waiting the full deadline. -/
theorem c3_wait_expires_immediately :
    (∀ now : Nat, read_newest_wait_deadline now = now) ∧
    (∀ now : Nat, read_newest_wait_deadline now - now = 0) ∧
    (∀ now : Nat, consume_wait_deadline now - now = DEFAULT_LOCK_TIMEOUT_SEC) ∧
    DEFAULT_LOCK_TIMEOUT_SEC = 1 ∧
    read_newest_available (MTCircularBuffer_init 5) true =
      some { err := some BuffErr.dataAvailableTimeout
             state := MTCircularBuffer_init 5
             handle := none } :=
  ⟨fun _ => rfl, fun now => Nat.sub_self now,
   fun now => by simp [consume_wait_deadline], rfl, rfl⟩

/-- C6: with a non-empty drained-queue, `consume_next_available` targets the
FRONT entry; when the slot-lock attempt fails it leaves the queue (indeed
the whole state) unchanged, calls `notify_all` and raises `SlotAcqTimeout`;
when the lock succeeds it pops exactly that front entry. -/
theorem c6_consume_front (s : BufferState) (slot : Nat) (rest : List Nat)
    (d : BufferSlotDescriptor)
    (hq : s.dirty_slots = slot :: rest) (hd : getDesc s slot = some d) :
    (∃ out, consume_next_available s false = some out ∧
       out.err = some BuffErr.slotAcqTimeout ∧
       out.state = s ∧ out.handle = none ∧ out.notified_all = true) ∧
    (∃ out, consume_next_available s true = some out ∧
       out.err = none ∧ out.handle = some slot ∧
       out.state.dirty_slots = rest ∧ out.notified_all = false) := by
  obtain ⟨bd, ds, cw⟩ := s
  simp only at hq hd
  subst hq
  constructor
  · refine ⟨{ err := some BuffErr.slotAcqTimeout
              state := { buff_desc := bd, dirty_slots := slot :: rest, curr_w_slot := cw }
              handle := none, notified_all := true }, ?_, rfl, rfl, rfl, rfl⟩
    simp [consume_next_available, hd]
  · refine ⟨{ err := none
              state := { buff_desc := bd.set slot { d with n_reading := d.n_reading + 1 }
                         dirty_slots := rest, curr_w_slot := cw }
              handle := some slot, notified_all := false }, ?_, rfl, rfl, rfl, rfl⟩
    simp [consume_next_available, hd, setDesc]

/-- Witness for C6 on `sampleState` (queue `[0]`). -/
theorem c6_witness :
    (∃ out, consume_next_available sampleState false = some out ∧
       out.err = some BuffErr.slotAcqTimeout ∧
       out.state = sampleState ∧ out.handle = none ∧ out.notified_all = true) ∧
    (∃ out, consume_next_available sampleState true = some out ∧
       out.err = none ∧ out.handle = some 0 ∧
       out.state.dirty_slots = [] ∧ out.notified_all = false) :=
  c6_consume_front sampleState 0 []
    { writing := false, n_reading := 0, is_dirty := true } rfl rfl

/-- C7: a successful `consume_next_available` followed by release of the
consume handle leaves the slot with `is_dirty = false` and `n_reading` back
at its prior value; the release touches no queue (the entry was popped at
acquisition), and `num_consumable_slots` has decreased by one net across
the whole operation. -/
theorem c7_consume_release (s : BufferState) (slot : Nat) (rest : List Nat)
    (d : BufferSlotDescriptor)
    (hq : s.dirty_slots = slot :: rest) (hd : getDesc s slot = some d) :
    ∃ out s2, consume_next_available s true = some out ∧ out.err = none ∧
      out.handle = some slot ∧
      release_slot_access_consume out.state slot = some s2 ∧
      getDesc s2 slot =
        some { writing := d.writing, n_reading := d.n_reading, is_dirty := false } ∧
      s2.dirty_slots = out.state.dirty_slots ∧
      num_consumable_slots s2 = num_consumable_slots s - 1 := by
  have hlt : slot < s.buff_desc.length := by
    by_contra hge
    rw [getDesc, List.get?_eq_getElem?, List.getElem?_eq_none (Nat.le_of_not_lt hge)] at hd
    exact Option.noConfusion hd
  obtain ⟨bd, ds, cw⟩ := s
  simp only at hq hd hlt
  subst hq
  have hstep : consume_next_available ⟨bd, slot :: rest, cw⟩ true =
      some { err := none
             state := { buff_desc := bd.set slot { d with n_reading := d.n_reading + 1 }
                        dirty_slots := rest, curr_w_slot := cw }
             handle := some slot, notified_all := false } := by
    simp [consume_next_available, hd, setDesc]
  have hd1 : getDesc { buff_desc := bd.set slot { d with n_reading := d.n_reading + 1 }
                       dirty_slots := rest, curr_w_slot := cw } slot =
      some { d with n_reading := d.n_reading + 1 } := by
    simp [getDesc, List.get?_eq_getElem?, List.getElem?_set_self, hlt]
  have hrel : release_slot_access_consume
      { buff_desc := bd.set slot { d with n_reading := d.n_reading + 1 }
        dirty_slots := rest, curr_w_slot := cw } slot =
      some (⟨(bd.set slot { d with n_reading := d.n_reading + 1 }).set slot
          { writing := d.writing, n_reading := d.n_reading, is_dirty := false },
        rest, cw⟩ : BufferState) := by
    simp [release_slot_access_consume, hd1, setDesc]
  have hs2 : getDesc (⟨(bd.set slot { d with n_reading := d.n_reading + 1 }).set slot
          { writing := d.writing, n_reading := d.n_reading, is_dirty := false },
        rest, cw⟩ : BufferState) slot =
      some { writing := d.writing, n_reading := d.n_reading, is_dirty := false } := by
    simp [getDesc, List.get?_eq_getElem?, List.getElem?_set_self, hlt]
  exact ⟨_, _, hstep, rfl, rfl, hrel, hs2, rfl, by simp [num_consumable_slots]⟩

/-- Witness for C7 on `sampleState`. -/
theorem c7_witness :
    ∃ out s2, consume_next_available sampleState true = some out ∧ out.err = none ∧
      out.handle = some 0 ∧
      release_slot_access_consume out.state 0 = some s2 ∧
      getDesc s2 0 = some { writing := false, n_reading := 0, is_dirty := false } ∧
      s2.dirty_slots = out.state.dirty_slots ∧
      num_consumable_slots s2 = num_consumable_slots sampleState - 1 :=
  c7_consume_release sampleState 0 []
    { writing := false, n_reading := 0, is_dirty := true } rfl rfl

/-- C8: a successful `clear()` leaves `num_consumable_slots() = 0` and the
write cursor at `0`, so the next successful `write_next` binds slot 0. -/
theorem c8_clear (s : BufferState) (hn : 0 < size s) :
    ∃ s1, clear s true = Except.ok s1 ∧
      num_consumable_slots s1 = 0 ∧
      s1.curr_w_slot = 0 ∧
      ∀ w : Bool, ∃ out, write_next s1 w true true = some out ∧
        out.err = none ∧ out.handle = some 0 := by
  obtain ⟨bd, ds, cw⟩ := s
  simp only [size] at hn
  refine ⟨⟨bd, [], 0⟩, rfl, rfl, rfl, ?_⟩
  intro w
  obtain ⟨d, hd⟩ : ∃ d, bd[0]? = some d := ⟨bd.get ⟨0, hn⟩, List.getElem?_eq_getElem hn⟩
  refine ⟨{ err := none
            state := ⟨bd.set 0 { d with writing := true }, [], (0 + 1) % bd.length⟩
            handle := some 0
            overwrite_occurred := if w then some d.is_dirty else none },
    ?_, rfl, rfl⟩
  simp [write_next, getDesc, setDesc, size, hd]

/-- Witness for C8 on `sampleState`. -/
theorem c8_witness :
    ∃ s1, clear sampleState true = Except.ok s1 ∧
      num_consumable_slots s1 = 0 ∧
      s1.curr_w_slot = 0 ∧
      ∀ w : Bool, ∃ out, write_next s1 w true true = some out ∧
        out.err = none ∧ out.handle = some 0 :=
  c8_clear sampleState (by decide)

/-- C9: `clear()` mutates only the drained-queue and the write cursor —
every slot descriptor is unchanged — so a slot that was dirty before
`clear()` stays `is_dirty`, and a later `write_next` targeting it (the
cursor now points at slot 0) still reports `overwrite_occurred = true`
even though the drained-queue was emptied. -/
theorem c9_clear_frame (s s1 : BufferState) (d : BufferSlotDescriptor)
    (h : clear s true = Except.ok s1)
    (h0 : getDesc s 0 = some d) (hdirty : d.is_dirty = true) :
    s1.buff_desc = s.buff_desc ∧
    (∀ i, getDesc s1 i = getDesc s i) ∧
    num_consumable_slots s1 = 0 ∧
    getDesc s1 0 = some d ∧
    ∀ mo : Bool, ∃ out, write_next s1 true true mo = some out ∧
      out.overwrite_occurred = some true := by
  obtain ⟨bd, ds, cw⟩ := s
  simp only [getDesc] at h0
  have h0e : bd[0]? = some d := by
    rw [← List.get?_eq_getElem?]
    exact h0
  simp only [clear, Bool.true_eq_false, if_false, ite_false, Except.ok.injEq] at h
  subst h
  refine ⟨rfl, fun i => rfl, rfl, h0, ?_⟩
  intro mo
  cases mo with
  | false =>
    refine ⟨{ err := some BuffErr.slotAcqTimeout
              state := ⟨bd.set 0 { d with writing := true }, [], 0⟩
              handle := some 0
              overwrite_occurred := some d.is_dirty }, ?_, by rw [hdirty]⟩
    simp [write_next, getDesc, setDesc, h0e]
  | true =>
    refine ⟨{ err := none
              state := ⟨bd.set 0 { d with writing := true }, [], (0 + 1) % bd.length⟩
              handle := some 0
              overwrite_occurred := some d.is_dirty }, ?_, by rw [hdirty]⟩
    simp [write_next, getDesc, setDesc, size, h0e]

/-- Witness for C9: clearing a state with slot 0 dirty. -/
theorem c9_witness :
    (clear { buff_desc := [{ writing := false, n_reading := 0, is_dirty := true }]
             dirty_slots := [0]
             curr_w_slot := 0 } true =
       Except.ok { buff_desc := [{ writing := false, n_reading := 0, is_dirty := true }]
                   dirty_slots := []
                   curr_w_slot := 0 }) ∧
    (({ buff_desc := [{ writing := false, n_reading := 0, is_dirty := true }]
        dirty_slots := []
        curr_w_slot := 0 } : BufferState).buff_desc =
      ({ buff_desc := [{ writing := false, n_reading := 0, is_dirty := true }]
         dirty_slots := [0]
         curr_w_slot := 0 } : BufferState).buff_desc) ∧
    ∀ mo : Bool, ∃ out,
      write_next { buff_desc := [{ writing := false, n_reading := 0, is_dirty := true }]
                   dirty_slots := []
                   curr_w_slot := 0 } true true mo = some out ∧
      out.overwrite_occurred = some true := by
  have h := c9_clear_frame
    { buff_desc := [{ writing := false, n_reading := 0, is_dirty := true }]
      dirty_slots := [0]
      curr_w_slot := 0 }
    { buff_desc := [{ writing := false, n_reading := 0, is_dirty := true }]
      dirty_slots := []
      curr_w_slot := 0 }
    { writing := false, n_reading := 0, is_dirty := true } rfl rfl rfl
  exact ⟨rfl, h.1, h.2.2.2.2⟩

/-- C10: the checked observers are total with documented fallbacks, while
`read_slot` and `write_next` index the descriptor vector directly: their
embeddings are defined (`isSome`) exactly when the accessed index is in
range — `slot < N` for `read_slot`, and cursor `< N` for `write_next`
(which with the cursor invariant requires `N > 0`); out of range the
observers return `false` / `0` without touching the vector. -/
theorem c10_unchecked_access (s : BufferState) (slot : Nat) (ok w a b : Bool) :
    ((read_slot s slot ok).isSome ↔ slot < size s) ∧
    ((write_next s w a b).isSome ↔ s.curr_w_slot < size s) ∧
    (size s ≤ slot → is_written s slot = false ∧ num_concurrent_read s slot = 0 ∧
      is_read s slot = false) := by
  refine ⟨?_, ?_, ?_⟩
  · cases h : s.buff_desc[slot]? with
    | none =>
      have hge : s.buff_desc.length ≤ slot := List.getElem?_eq_none_iff.mp h
      cases ok <;> simp [read_slot, getDesc, h, size, Nat.not_lt.mpr hge]
    | some d =>
      obtain ⟨hlt, -⟩ := List.getElem?_eq_some_iff.mp h
      cases ok <;> simp [read_slot, getDesc, h, size, hlt]
  · cases h : s.buff_desc[s.curr_w_slot]? with
    | none =>
      have hge : s.buff_desc.length ≤ s.curr_w_slot := List.getElem?_eq_none_iff.mp h
      cases a <;> cases b <;>
        simp [write_next, getDesc, h, size, Nat.not_lt.mpr hge]
    | some d =>
      obtain ⟨hlt, -⟩ := List.getElem?_eq_some_iff.mp h
      cases a <;> cases b <;> simp [write_next, getDesc, h, size, hlt]
  · intro hge
    have h : s.buff_desc[slot]? = none := by
      rw [List.getElem?_eq_none_iff]
      simpa [size] using hge
    simp [is_written, num_concurrent_read, is_read, h]

/-- Witness for C10: the checked observers at the out-of-range index 5 of a
two-slot buffer. -/
theorem c10_witness :
    is_written (MTCircularBuffer_init 2) 5 = false ∧
    num_concurrent_read (MTCircularBuffer_init 2) 5 = 0 ∧
    is_read (MTCircularBuffer_init 2) 5 = false :=
  (c10_unchecked_access (MTCircularBuffer_init 2) 5 true true true true).2.2 (by decide)

end MTCB
